import Mathlib

/-!
Shallow embedding of `trax/models/rl.py` and the gin-configuration part of
`trax/supervised/inputs_test.py`.

The three factory functions `Policy`, `Value` and `PolicyAndValue` build a
tree of layer-combinator calls (`tl.Serial`, `tl.Parallel`, `tl.Branch`,
`tl.Add`, `tl.Dense`, plus `models.PureMLP`).  We embed those trees as the
inductive type `Layer`.  A Python argument slot that can hold either a layer
or a plain Python list of layers is embedded uniformly as a `Layer`, with the
constructor `Layer.ofList` marking a bare list of layers (such as the `[]`
produced by the defaulted `body` and `normalizer` callbacks).

Optional / defaulted Python arguments (`body=None`, `normalizer=None`,
`head_init_range=None`) are embedded as `Option` values, with the source's
`if x is None` defaulting reproduced inside each factory.
-/

namespace Trax

/-- The `mode` argument of the factories: a plain Python string
(its default value in the source is the string literal `train`). -/
abbrev Mode := String

/-- `tl.RandomUniformInitializer(lim=...)`: the only initializer constructed
by `rl.py`.  Its `lim` argument is a Python number, embedded as `Rat`. -/
inductive Initializer where
  | RandomUniformInitializer (lim : Rat) : Initializer
deriving DecidableEq

/-- The only attribute of `policy_distribution` that `rl.py` reads is
`n_inputs` (the output size of the policy head). -/
structure PolicyDistribution where
  n_inputs : Nat
deriving DecidableEq

/-- The tree of layer-combinator calls built by the factories in `rl.py`.

`Dense n k` embeds `tl.Dense(n)` when `k = none` and
`tl.Dense(n, kernel_initializer=i)` when `k = some i`, so the presence or
absence of the `kernel_initializer` keyword argument is part of the tree.
`PureMLP` embeds `models.PureMLP(layer_widths=..., out_activation=...,
flatten=..., mode=...)`.  `ofList ls` embeds a bare Python list of layers
used where a layer argument is expected. -/
inductive Layer where
  | Dense (n_units : Nat) (kernel_initializer : Option Initializer) : Layer
  | Add : Layer
  | PureMLP (layer_widths : List Nat) (out_activation : Bool)
      (flatten : Bool) (mode : Mode) : Layer
  | Serial (sublayers : List Layer) : Layer
  | Parallel (sublayers : List Layer) : Layer
  | Branch (sublayers : List Layer) : Layer
  | ofList (layers : List Layer) : Layer

/-- `Policy(policy_distribution, body=None, normalizer=None,
head_init_range=None, mode='train')` from `rl.py`: attaches a policy head to
a model body.  `body` and `normalizer` are callbacks taking `mode`;
`None` defaults them to `lambda mode: []`. -/
def Policy (policy_distribution : PolicyDistribution)
    (body : Option (Mode → Layer))
    (normalizer : Option (Mode → Layer))
    (head_init_range : Option Rat)
    (mode : Mode) : Layer :=
  let body := body.getD (fun _mode => Layer.ofList [])
  let normalizer := normalizer.getD (fun _mode => Layer.ofList [])
  let head_kwargs : Option Initializer :=
    match head_init_range with
    | some lim => some (Initializer.RandomUniformInitializer lim)
    | none => none
  Layer.Serial [
    normalizer mode,
    body mode,
    Layer.Dense policy_distribution.n_inputs head_kwargs
  ]

/-- `Value(body=None, normalizer=None, inject_actions=False,
inject_actions_n_layers=1, inject_actions_dim=64, mode='train')` from
`rl.py`: attaches a value head to a model body.  The inner `ActionInjector`
returns a `Serial(Parallel(Dense, Dense), Add, PureMLP)` block when
`inject_actions` is true and the empty layer list otherwise.  The Python
tuple `(inject_actions_dim,) * inject_actions_n_layers` is embedded as
`List.replicate`. -/
def Value (body : Option (Mode → Layer))
    (normalizer : Option (Mode → Layer))
    (inject_actions : Bool)
    (inject_actions_n_layers : Nat)
    (inject_actions_dim : Nat)
    (mode : Mode) : Layer :=
  let body := body.getD (fun _mode => Layer.ofList [])
  let normalizer := normalizer.getD (fun _mode => Layer.ofList [])
  let ActionInjector : Mode → Layer := fun mode =>
    if inject_actions then
      Layer.Serial [
        Layer.Parallel [
          Layer.Dense inject_actions_dim none,
          Layer.Dense inject_actions_dim none
        ],
        Layer.Add,
        Layer.PureMLP (List.replicate inject_actions_n_layers inject_actions_dim)
          true false mode
      ]
    else
      Layer.ofList []
  Layer.Serial [
    normalizer mode,
    body mode,
    ActionInjector mode,
    Layer.Dense 1 none
  ]

/-- `PolicyAndValue(policy_distribution, body=None, policy_top=Policy,
value_top=Value, normalizer=None, head_init_range=None, mode='train')` from
`rl.py`.  As in the source, `head_kwargs` is computed from `head_init_range`
but never used.  `policy_top` is called with keyword arguments
`policy_distribution` and `mode`; `value_top` with keyword argument `mode`. -/
def PolicyAndValue (policy_distribution : PolicyDistribution)
    (body : Option (Mode → Layer))
    (policy_top : PolicyDistribution → Mode → Layer)
    (value_top : Mode → Layer)
    (normalizer : Option (Mode → Layer))
    (head_init_range : Option Rat)
    (mode : Mode) : Layer :=
  let _head_kwargs : Option Initializer :=
    match head_init_range with
    | some lim => some (Initializer.RandomUniformInitializer lim)
    | none => none
  let normalizer := normalizer.getD (fun _mode => Layer.ofList [])
  let body := body.getD (fun _mode => Layer.ofList [])
  Layer.Serial [
    normalizer mode,
    body mode,
    Layer.Branch [
      policy_top policy_distribution mode,
      value_top mode
    ]
  ]

/-- The Python default `policy_top=Policy`, applied the way `PolicyAndValue`
applies it: only `policy_distribution` and `mode` are passed, every other
argument of `Policy` keeps its own default. -/
def default_policy_top (policy_distribution : PolicyDistribution)
    (mode : Mode) : Layer :=
  Policy policy_distribution none none none mode

/-- The Python default `value_top=Value`, applied the way `PolicyAndValue`
applies it: only `mode` is passed, every other argument of `Value` keeps its
own default (`body=None`, `normalizer=None`, `inject_actions=False`,
`inject_actions_n_layers=1`, `inject_actions_dim=64`). -/
def default_value_top (mode : Mode) : Layer :=
  Value none none false 1 64 mode

/-- The names of the `tl` (layer-combinator library) primitives invoked to
build a layer tree: each constructor of the tree contributes the `tl` name it
embeds, `Dense` additionally contributes `RandomUniformInitializer` when a
kernel initializer was constructed for it, and `PureMLP` (which comes from
`models`, not `tl`) and a bare Python list contribute nothing. -/
def Layer.tlNames : Layer → List String
  | .Dense _ none => ["Dense"]
  | .Dense _ (some _) => ["Dense", "RandomUniformInitializer"]
  | .Add => ["Add"]
  | .PureMLP _ _ _ _ => []
  | .Serial ls => "Serial" :: (ls.attach.map (fun x => Layer.tlNames x.1)).flatten
  | .Parallel ls => "Parallel" :: (ls.attach.map (fun x => Layer.tlNames x.1)).flatten
  | .Branch ls => "Branch" :: (ls.attach.map (fun x => Layer.tlNames x.1)).flatten
  | .ofList ls => (ls.attach.map (fun x => Layer.tlNames x.1)).flatten
decreasing_by
  all_goals simp_wf
  all_goals
    have h := List.sizeOf_lt_of_mem x.2
    omega

/-- The six `tl` names the spec lists as the whole layer-combinator surface
consumed by `rl.py`. -/
def allowedTlNames : List String :=
  ["Serial", "Parallel", "Branch", "Add", "Dense", "RandomUniformInitializer"]

/-- The functions of the `t5.data.preprocessors` module that
`inputs_test.py` mentions (as list entries or as values of gin
parameters). -/
inductive T5ProcessorFn where
  | select_random_chunk : T5ProcessorFn
  | reduce_concat_tokens : T5ProcessorFn
  | split_tokens : T5ProcessorFn
  | denoise : T5ProcessorFn
  | noise_span_to_unique_sentinel : T5ProcessorFn
  | random_spans_noise_mask : T5ProcessorFn
  | nonnoise_span_to_unique_sentinel : T5ProcessorFn
deriving DecidableEq

/-- A value passed to `gin.bind_parameter` by an `InputsTest` method
(`t5_gin_config`, `test_c4` or `test_c4_pretrain`): a list of preprocessor
functions, a single preprocessor function, a string, an integer, a float
(embedded as `Rat`), the result of the external call
`t5_processors.random_spans_tokens_length()`, one of the two `inputs` module
functions bound as values, a path `os.path.join(_TESTDATA, name)`, or a
bucket specification `(boundaries, batch_sizes)`. -/
inductive GinValue where
  | fnList (fns : List T5ProcessorFn) : GinValue
  | fn (f : T5ProcessorFn) : GinValue
  | str (s : String) : GinValue
  | nat (n : Nat) : GinValue
  | rat (q : Rat) : GinValue
  | randomSpansTokensLength : GinValue
  | inputs_c4_preprocess : GinValue
  | inputs_c4_bare_preprocess_fun : GinValue
  | testdata_path (name : String) : GinValue
  | buckets (boundaries batch_sizes : List Nat) : GinValue
deriving DecidableEq

/-- `InputsTest.t5_gin_config` from `inputs_test.py`, embedded as the
ordered list of `(parameter name, value)` pairs it passes to
`gin.bind_parameter`, with the method's local variables
`noise_density = 0.15` and `max_input_length = 50` reproduced. -/
def t5_gin_config : List (String × GinValue) :=
  let noise_density : Rat := 15 / 100
  let max_input_length : Nat := 50
  [ ("unsupervised.preprocessors", GinValue.fnList [
      T5ProcessorFn.select_random_chunk,
      T5ProcessorFn.reduce_concat_tokens,
      T5ProcessorFn.split_tokens,
      T5ProcessorFn.denoise
    ]),
    ("select_random_chunk.feature_key", GinValue.str "targets"),
    ("select_random_chunk.max_length", GinValue.nat max_input_length),
    ("random_spans_helper.extra_tokens_per_span_inputs", GinValue.nat 1),
    ("random_spans_helper.extra_tokens_per_span_targets", GinValue.nat 1),
    ("random_spans_helper.inputs_length", GinValue.nat max_input_length),
    ("random_spans_helper.mean_noise_span_length", GinValue.rat 3),
    ("random_spans_helper.noise_density", GinValue.rat noise_density),
    ("split_tokens.max_tokens_per_segment", GinValue.randomSpansTokensLength),
    ("denoise.inputs_fn", GinValue.fn T5ProcessorFn.noise_span_to_unique_sentinel),
    ("denoise.noise_density", GinValue.rat noise_density),
    ("denoise.noise_mask_fn", GinValue.fn T5ProcessorFn.random_spans_noise_mask),
    ("denoise.targets_fn", GinValue.fn T5ProcessorFn.nonnoise_span_to_unique_sentinel)
  ]

/-- `Policy` with the calls into the underlying framework (the `normalizer`
and `body` callbacks) allowed to raise: an exception is embedded as
`Except.error`.  The source wraps no call in a `try`/`except`, so the
Python evaluation order (normalizer first, then body) is threaded with plain
monadic bind and any raised exception propagates. -/
def PolicyExc {E : Type} (policy_distribution : PolicyDistribution)
    (body : Option (Mode → Except E Layer))
    (normalizer : Option (Mode → Except E Layer))
    (head_init_range : Option Rat)
    (mode : Mode) : Except E Layer := do
  let body := body.getD (fun _mode => .ok (Layer.ofList []))
  let normalizer := normalizer.getD (fun _mode => .ok (Layer.ofList []))
  let head_kwargs : Option Initializer :=
    match head_init_range with
    | some lim => some (Initializer.RandomUniformInitializer lim)
    | none => none
  let n ← normalizer mode
  let b ← body mode
  return Layer.Serial [n, b, Layer.Dense policy_distribution.n_inputs head_kwargs]

/-- `Value` with the `normalizer` and `body` callbacks allowed to raise;
as in the source there is no exception handler. -/
def ValueExc {E : Type} (body : Option (Mode → Except E Layer))
    (normalizer : Option (Mode → Except E Layer))
    (inject_actions : Bool)
    (inject_actions_n_layers : Nat)
    (inject_actions_dim : Nat)
    (mode : Mode) : Except E Layer := do
  let body := body.getD (fun _mode => .ok (Layer.ofList []))
  let normalizer := normalizer.getD (fun _mode => .ok (Layer.ofList []))
  let ActionInjector : Mode → Layer := fun mode =>
    if inject_actions then
      Layer.Serial [
        Layer.Parallel [
          Layer.Dense inject_actions_dim none,
          Layer.Dense inject_actions_dim none
        ],
        Layer.Add,
        Layer.PureMLP (List.replicate inject_actions_n_layers inject_actions_dim)
          true false mode
      ]
    else
      Layer.ofList []
  let n ← normalizer mode
  let b ← body mode
  return Layer.Serial [n, b, ActionInjector mode, Layer.Dense 1 none]

/-- `PolicyAndValue` with the `normalizer`, `body`, `policy_top` and
`value_top` callbacks allowed to raise; as in the source there is no
exception handler, and the calls are threaded in Python's evaluation order
(normalizer, body, policy_top, value_top). -/
def PolicyAndValueExc {E : Type} (policy_distribution : PolicyDistribution)
    (body : Option (Mode → Except E Layer))
    (policy_top : PolicyDistribution → Mode → Except E Layer)
    (value_top : Mode → Except E Layer)
    (normalizer : Option (Mode → Except E Layer))
    (head_init_range : Option Rat)
    (mode : Mode) : Except E Layer := do
  let _head_kwargs : Option Initializer :=
    match head_init_range with
    | some lim => some (Initializer.RandomUniformInitializer lim)
    | none => none
  let normalizer := normalizer.getD (fun _mode => .ok (Layer.ofList []))
  let body := body.getD (fun _mode => .ok (Layer.ofList []))
  let n ← normalizer mode
  let b ← body mode
  let p ← policy_top policy_distribution mode
  let v ← value_top mode
  return Layer.Serial [n, b, Layer.Branch [p, v]]

/-- Runs a list of gin bindings in order through a fallible
`gin.bind_parameter`, stopping at the first raised exception; there is no
handler in `t5_gin_config`, so an exception propagates. -/
def run_gin_bindings {E : Type} (bind_parameter : String → GinValue → Except E Unit) :
    List (String × GinValue) → Except E Unit
  | [] => .ok ()
  | (k, v) :: rest => do
    bind_parameter k v
    run_gin_bindings bind_parameter rest

/-- `InputsTest.t5_gin_config` run against a fallible `gin.bind_parameter`. -/
def t5_gin_config_run {E : Type} (bind_parameter : String → GinValue → Except E Unit) :
    Except E Unit :=
  run_gin_bindings bind_parameter t5_gin_config

/-- `InputsTest.setUp`: calls `super().setUp()` then `gin.clear_config()`,
both fallible framework calls, with no handler. -/
def InputsTest_setUp (E : Type)
    (super_setUp : Except E Unit)
    (gin_clear_config : Except E Unit) : Except E Unit := do
  super_setUp
  gin_clear_config

/-- `InputsTest.test_batch_data`: the generator expression
`((i, i+1) for i in range(10))` is created lazily (creation cannot raise)
and is the abstract value `dataset`; then `inputs.batch_data(dataset, 10)`,
`next(batches)` and the two `assertEqual` calls run in order with no
handler. -/
def InputsTest_test_batch_data (E D B Bt : Type)
    (dataset : D)
    (batch_data : D → Nat → Except E B)
    (next_batch : B → Except E Bt)
    (assert_batch_len : Bt → Except E Unit)
    (assert_batch_shape : Bt → Except E Unit) : Except E Unit := do
  let batches ← batch_data dataset 10
  let batch ← next_batch batches
  assert_batch_len batch
  assert_batch_shape batch

/-- `InputsTest.test_pad_to_max_dims`: four blocks, each building two numpy
tensors, padding them with `inputs.pad_to_max_dims` (without or with the
extra length argument 12) and asserting the padded shape; every call is a
fallible framework call and there is no handler. -/
def InputsTest_test_pad_to_max_dims (E T : Type)
    (np_zeros : Nat × Nat → Except E T)
    (np_ones : Nat × Nat → Except E T)
    (pad_to_max_dims : List T → Option Nat → Except E T)
    (assert_shape : T → Nat × Nat × Nat → Except E Unit) : Except E Unit := do
  let z1 ← np_zeros (3, 10)
  let o1 ← np_ones (3, 10)
  let padded1 ← pad_to_max_dims [z1, o1] none
  assert_shape padded1 (2, 3, 10)
  let z2 ← np_zeros (2, 10)
  let o2 ← np_ones (3, 9)
  let padded2 ← pad_to_max_dims [z2, o2] none
  assert_shape padded2 (2, 3, 10)
  let z3 ← np_zeros (8, 10)
  let o3 ← np_ones (8, 9)
  let padded3 ← pad_to_max_dims [z3, o3] (some 12)
  assert_shape padded3 (2, 8, 12)
  let z4 ← np_zeros (2, 10)
  let o4 ← np_ones (3, 9)
  let padded4 ← pad_to_max_dims [z4, o4] (some 12)
  assert_shape padded4 (2, 4, 12)

/-- `InputsTest.test_c4_bare_preprocess_fun`: `_c4_dataset()` (a `tfds.load`
behind the module helper), the chain
`list(tfds.as_numpy(dataset.take(1)))[0]` as one fallible call, the
dictionary accesses and the unittest assertions in source order, with no
handler anywhere (the string arguments mirror the keys asserted on). -/
def InputsTest_test_c4_bare_preprocess_fun (E D Ex Txt : Type)
    (c4_dataset : Except E D)
    (take_first_example : D → Except E Ex)
    (assert_not_in : String → Ex → Except E Unit)
    (assert_in : String → Ex → Except E Unit)
    (get_text : Ex → Except E Txt)
    (c4_bare_preprocess_fun : D → Except E D)
    (assert_eq_text : Ex → String → Txt → Except E Unit)
    (assert_is_ndarray : Ex → String → Except E Unit)
    (assert_dtype_int64 : Ex → String → Except E Unit)
    (assert_len_gt_zero : Ex → String → Except E Unit)
    (assert_len_zero : Ex → String → Except E Unit) : Except E Unit := do
  let dataset ← c4_dataset
  let exm ← take_first_example dataset
  assert_not_in "targets" exm
  assert_in "text" exm
  let text ← get_text exm
  let dataset2 ← c4_bare_preprocess_fun dataset
  let example2 ← take_first_example dataset2
  assert_in "targets_plaintext" example2
  assert_eq_text example2 "targets_plaintext" text
  assert_in "targets" example2
  assert_is_ndarray example2 "targets"
  assert_dtype_int64 example2 "targets"
  assert_len_gt_zero example2 "targets"
  assert_in "inputs" example2
  assert_len_zero example2 "inputs"

/-- The `for example in tfds.as_numpy(load_c4_dataset())` loop of
`test_c4_preprocess`: `assertNotIn('targets', example[0])` on each element
in order; a raised exception leaves the loop unhandled. -/
def check_unfiltered {E Ex : Type}
    (assert_not_in_targets : Ex → Except E Unit) :
    List Ex → Except E Unit
  | [] => .ok ()
  | exm :: rest => do
    assert_not_in_targets exm
    check_unfiltered assert_not_in_targets rest

/-- The loop body of the nested `examine_processed_dataset` helper of
`test_c4_preprocess`: per element, `assertIn('targets', ex)`, the dtype
assertion, and `lengths.append(len(ex['targets']))`, accumulating `count`
and `lengths` exactly as the Python loop does. -/
def examine_loop {E Ex : Type}
    (assert_targets_in : Ex → Except E Unit)
    (assert_targets_dtype : Ex → Except E Unit)
    (targets_len : Ex → Except E Nat)
    (count : Nat) (lengths : List Nat) :
    List Ex → Except E (Nat × List Nat)
  | [] => .ok (count, lengths)
  | exm :: rest => do
    assert_targets_in exm
    assert_targets_dtype exm
    let len ← targets_len exm
    examine_loop assert_targets_in assert_targets_dtype targets_len
      (count + 1) (lengths ++ [len]) rest

/-- The nested `examine_processed_dataset` helper of `test_c4_preprocess`:
iterates `tfds.as_numpy(proc_dataset)` and returns `(count, lengths)`. -/
def examine_processed_dataset {E D Ex : Type}
    (as_numpy_list : D → Except E (List Ex))
    (assert_targets_in : Ex → Except E Unit)
    (assert_targets_dtype : Ex → Except E Unit)
    (targets_len : Ex → Except E Nat)
    (proc_dataset : D) : Except E (Nat × List Nat) := do
  let examples ← as_numpy_list proc_dataset
  examine_loop assert_targets_in assert_targets_dtype targets_len 0 [] examples

/-- The final `for spc_len, char_len in zip(spc_lengths, char_lengths)`
loop of `test_c4_preprocess`: `assertLessEqual` on each pair in order. -/
def check_lengths_le {E : Type}
    (assert_le : Nat → Nat → Except E Unit) :
    List (Nat × Nat) → Except E Unit
  | [] => .ok ()
  | p :: rest => do
    assert_le p.1 p.2
    check_lengths_le assert_le rest

/-- `InputsTest.test_c4_preprocess` in source order: the unfiltered
iteration with its per-element assertion, then
`inputs.c4_preprocess(load_c4_dataset(), False, ({}, ()), 2048)` (the
`({}, ())` constant embedded as `()`), the shape assertion, the first
`examine_processed_dataset`, three count assertions, the second
`c4_preprocess` call with `tokenization='spc'` and the testdata
sentencepiece path, the second examination, two more count assertions, and
the final zip loop of length comparisons; no handler anywhere. -/
def InputsTest_test_c4_preprocess (E D Ex S : Type)
    (load_c4_dataset : Unit → Except E D)
    (as_numpy_list : D → Except E (List Ex))
    (assert_not_in_targets : Ex → Except E Unit)
    (c4_preprocess : D → Bool → Unit → Nat → Option String → Option String →
      Except E (D × S))
    (assert_target_shape : S → Except E Unit)
    (assert_targets_in : Ex → Except E Unit)
    (assert_targets_dtype : Ex → Except E Unit)
    (targets_len : Ex → Except E Nat)
    (assert_gt : Nat → Nat → Except E Unit)
    (assert_lt : Nat → Nat → Except E Unit)
    (assert_le : Nat → Nat → Except E Unit)
    (assert_eq_nat : Nat → Nat → Except E Unit) : Except E Unit := do
  let unfiltered ← load_c4_dataset ()
  let unfiltered_examples ← as_numpy_list unfiltered
  check_unfiltered assert_not_in_targets unfiltered_examples
  let d1 ← load_c4_dataset ()
  let pr1 ← c4_preprocess d1 false () 2048 none none
  assert_target_shape pr1.2
  let ex1 ← examine_processed_dataset as_numpy_list assert_targets_in
    assert_targets_dtype targets_len pr1.1
  assert_gt unfiltered_examples.length 0
  assert_gt ex1.1 0
  assert_lt ex1.1 unfiltered_examples.length
  let d2 ← load_c4_dataset ()
  let pr2 ← c4_preprocess d2 false () 2048 (some "spc")
    (some "sentencepiece.model")
  let ex2 ← examine_processed_dataset as_numpy_list assert_targets_in
    assert_targets_dtype targets_len pr2.1
  assert_le ex1.1 ex2.1
  assert_eq_nat unfiltered_examples.length ex2.1
  check_lengths_le assert_le (ex2.2.zip ex1.2)

/-- The eight ordered `gin.bind_parameter` calls of `InputsTest.test_c4`
(the `os.path.join(_TESTDATA, 'sentencepiece.model')` value embedded as
`testdata_path`). -/
def test_c4_gin_bindings : List (String × GinValue) :=
  [ ("shuffle_and_batch_data.preprocess_fun", GinValue.inputs_c4_preprocess),
    ("c4_preprocess.max_target_length", GinValue.nat 2048),
    ("c4_preprocess.tokenization", GinValue.str "spc"),
    ("c4_preprocess.spm_path", GinValue.testdata_path "sentencepiece.model"),
    ("batch_fn.batch_size_per_device", GinValue.nat 8),
    ("batch_fn.eval_batch_size", GinValue.nat 8),
    ("batch_fn.max_eval_length", GinValue.nat 2048),
    ("batch_fn.buckets", GinValue.buckets [2049] [8, 1])
  ]

/-- `InputsTest.test_c4`: the eight gin bindings in order, then
`inputs.inputs('c4', data_dir=_TESTDATA, input_name='targets',
target_name='text')`; no handler. -/
def InputsTest_test_c4 (E R : Type)
    (bind_parameter : String → GinValue → Except E Unit)
    (inputs_inputs : String → String → String → Except E R) :
    Except E Unit := do
  run_gin_bindings bind_parameter test_c4_gin_bindings
  let _ ← inputs_inputs "c4" "targets" "text"
  return ()

/-- `InputsTest.test_c4_bare_preprocess_fun_denoising_objective`:
`self.t5_gin_config()` (the thirteen bindings), `_c4_dataset()`,
`inputs.c4_bare_preprocess_fun` (whose result is unpacked as a pair at this
call site), the first-example chain, and the assertions, dictionary and
`collections.Counter` accesses in source order; no handler. -/
def InputsTest_test_c4_bare_preprocess_fun_denoising_objective (E D S Ex A C : Type)
    (bind_parameter : String → GinValue → Except E Unit)
    (c4_dataset : Except E D)
    (c4_bare_preprocess_fun : D → Except E (D × S))
    (take_first_example : D → Except E Ex)
    (assert_in : String → Ex → Except E Unit)
    (get_targets : Ex → Except E A)
    (get_inputs : Ex → Except E A)
    (assert_is_ndarray : A → Except E Unit)
    (assert_dtype_int64 : A → Except E Unit)
    (assert_len_gt_zero : A → Except E Unit)
    (assert_len_gt : A → A → Except E Unit)
    (counter_of : A → Except E C)
    (assert_count_one : C → Nat → Except E Unit) : Except E Unit := do
  run_gin_bindings bind_parameter t5_gin_config
  let dataset ← c4_dataset
  let pr ← c4_bare_preprocess_fun dataset
  let exm ← take_first_example pr.1
  assert_in "targets" exm
  let targets ← get_targets exm
  assert_is_ndarray targets
  assert_dtype_int64 targets
  assert_len_gt_zero targets
  assert_in "inputs" exm
  let inputs_arr ← get_inputs exm
  assert_is_ndarray inputs_arr
  assert_dtype_int64 inputs_arr
  assert_len_gt_zero inputs_arr
  assert_len_gt inputs_arr targets
  let inputs_counter ← counter_of inputs_arr
  let targets_counter ← counter_of targets
  assert_count_one inputs_counter 31999
  assert_count_one inputs_counter 31998
  assert_count_one targets_counter 31999
  assert_count_one targets_counter 31998

/-- The six ordered `gin.bind_parameter` calls of
`InputsTest.test_c4_pretrain` (after its `self.t5_gin_config()` call). -/
def test_c4_pretrain_gin_bindings : List (String × GinValue) :=
  [ ("shuffle_and_batch_data.bare_preprocess_fun",
      GinValue.inputs_c4_bare_preprocess_fun),
    ("c4_bare_preprocess_fun.spm_path",
      GinValue.testdata_path "sentencepiece.model"),
    ("batch_fn.batch_size_per_device", GinValue.nat 8),
    ("batch_fn.eval_batch_size", GinValue.nat 8),
    ("batch_fn.max_eval_length", GinValue.nat 50),
    ("batch_fn.buckets", GinValue.buckets [51] [8, 1])
  ]

/-- `InputsTest.test_c4_pretrain`: `self.t5_gin_config()` (thirteen
bindings), six more gin bindings, then `inputs.inputs('c4',
data_dir=_TESTDATA, input_name='inputs', target_name='targets')`; no
handler. -/
def InputsTest_test_c4_pretrain (E R : Type)
    (bind_parameter : String → GinValue → Except E Unit)
    (inputs_inputs : String → String → String → Except E R) :
    Except E Unit := do
  run_gin_bindings bind_parameter t5_gin_config
  run_gin_bindings bind_parameter test_c4_pretrain_gin_bindings
  let _ ← inputs_inputs "c4" "inputs" "targets"
  return ()

/-- Helper: mapping `tlNames` over an attached list is mapping it over the
list itself. -/
theorem attach_map_tlNames (ls : List Layer) :
    ls.attach.map (fun x => Layer.tlNames x.1) = ls.map Layer.tlNames := by
  rw [List.map_attach]
  exact List.pmap_eq_map _ _ _ _

/-- Unfolding lemma for `tlNames` on `Serial`. -/
theorem tlNames_Serial (ls : List Layer) :
    (Layer.Serial ls).tlNames = "Serial" :: (ls.map Layer.tlNames).flatten := by
  simp only [Layer.tlNames, attach_map_tlNames]

/-- Unfolding lemma for `tlNames` on `Parallel`. -/
theorem tlNames_Parallel (ls : List Layer) :
    (Layer.Parallel ls).tlNames =
      "Parallel" :: (ls.map Layer.tlNames).flatten := by
  simp only [Layer.tlNames, attach_map_tlNames]

/-- Unfolding lemma for `tlNames` on `Branch`. -/
theorem tlNames_Branch (ls : List Layer) :
    (Layer.Branch ls).tlNames = "Branch" :: (ls.map Layer.tlNames).flatten := by
  simp only [Layer.tlNames, attach_map_tlNames]

/-- Unfolding lemma for `tlNames` on a bare list of layers. -/
theorem tlNames_ofList (ls : List Layer) :
    (Layer.ofList ls).tlNames = (ls.map Layer.tlNames).flatten := by
  simp only [Layer.tlNames, attach_map_tlNames]

/-- C1: for every `policy_distribution`, `body`, `normalizer`, `policy_top`,
`value_top` and `mode`, `PolicyAndValue` returns
`tl.Serial(normalizer(mode), body(mode), tl.Branch(policy_top(...),
value_top(...)))`: the normalizer layers first, then the shared body, then a
`Branch` whose first branch is the policy head and whose second branch is
the value head. -/
theorem policyAndValue_layout
    (policy_distribution : PolicyDistribution)
    (body normalizer : Mode → Layer)
    (policy_top : PolicyDistribution → Mode → Layer)
    (value_top : Mode → Layer)
    (head_init_range : Option Rat) (mode : Mode) :
    PolicyAndValue policy_distribution (some body) policy_top value_top
        (some normalizer) head_init_range mode =
      Layer.Serial [
        normalizer mode,
        body mode,
        Layer.Branch [policy_top policy_distribution mode, value_top mode]
      ] := rfl

/-- C2: for every `policy_distribution`, `body`, `normalizer`,
`head_init_range` and `mode`, `Policy` returns exactly
`tl.Serial(normalizer(mode), body(mode),
tl.Dense(policy_distribution.n_inputs, ...))`: normalizer, then body, then a
single `Dense` head of output size `policy_distribution.n_inputs`. -/
theorem policy_layout
    (policy_distribution : PolicyDistribution)
    (body normalizer : Mode → Layer)
    (head_init_range : Option Rat) (mode : Mode) :
    Policy policy_distribution (some body) (some normalizer)
        head_init_range mode =
      Layer.Serial [
        normalizer mode,
        body mode,
        Layer.Dense policy_distribution.n_inputs
          (head_init_range.map Initializer.RandomUniformInitializer)
      ] := by
  cases head_init_range <;> rfl

/-- C3: for every `body`, `normalizer`, `inject_actions`,
`inject_actions_n_layers`, `inject_actions_dim` and `mode`, `Value` returns
`tl.Serial(normalizer(mode), body(mode), A, tl.Dense(1))` where `A` is the
empty layer list when `inject_actions` is false, and otherwise `A` is
`tl.Serial(tl.Parallel(Dense, Dense), tl.Add(), models.PureMLP(...))`; in
both cases the final head is a `Dense` layer of output size 1. -/
theorem value_layout
    (body normalizer : Mode → Layer)
    (inject_actions : Bool)
    (inject_actions_n_layers inject_actions_dim : Nat)
    (mode : Mode) :
    Value (some body) (some normalizer) inject_actions
        inject_actions_n_layers inject_actions_dim mode =
      Layer.Serial [
        normalizer mode,
        body mode,
        (if inject_actions then
          Layer.Serial [
            Layer.Parallel [
              Layer.Dense inject_actions_dim none,
              Layer.Dense inject_actions_dim none
            ],
            Layer.Add,
            Layer.PureMLP
              (List.replicate inject_actions_n_layers inject_actions_dim)
              true false mode
          ]
        else
          Layer.ofList []),
        Layer.Dense 1 none
      ] := rfl

/-- C4: the network returned by `PolicyAndValue` does not depend on
`head_init_range`: any two values (including `none`) with all other
arguments equal give the same layer structure, because the `head_kwargs`
built from `head_init_range` is never used. -/
theorem policyAndValue_head_init_range_irrelevant
    (policy_distribution : PolicyDistribution)
    (body : Option (Mode → Layer))
    (policy_top : PolicyDistribution → Mode → Layer)
    (value_top : Mode → Layer)
    (normalizer : Option (Mode → Layer))
    (r1 r2 : Option Rat) (mode : Mode) :
    PolicyAndValue policy_distribution body policy_top value_top
        normalizer r1 mode =
      PolicyAndValue policy_distribution body policy_top value_top
        normalizer r2 mode := rfl

/-- C5: `Policy`, `Value` and `PolicyAndValue` are deterministic: any two
calls of the same factory with equal arguments return equal layer
structures.  (Purity — absence of mutation — holds by construction of the
embedding: each factory is a pure function of its arguments.) -/
theorem factories_deterministic
    (pd1 pd2 : PolicyDistribution)
    (b1 b2 n1 n2 : Option (Mode → Layer))
    (ia1 ia2 : Bool) (nl1 nl2 dim1 dim2 : Nat)
    (pt1 pt2 : PolicyDistribution → Mode → Layer)
    (vt1 vt2 : Mode → Layer)
    (h1 h2 : Option Rat) (m1 m2 : Mode)
    (hpd : pd1 = pd2) (hb : b1 = b2) (hn : n1 = n2)
    (hia : ia1 = ia2) (hnl : nl1 = nl2) (hdim : dim1 = dim2)
    (hpt : pt1 = pt2) (hvt : vt1 = vt2)
    (hh : h1 = h2) (hm : m1 = m2) :
    Policy pd1 b1 n1 h1 m1 = Policy pd2 b2 n2 h2 m2 ∧
    Value b1 n1 ia1 nl1 dim1 m1 = Value b2 n2 ia2 nl2 dim2 m2 ∧
    PolicyAndValue pd1 b1 pt1 vt1 n1 h1 m1 =
      PolicyAndValue pd2 b2 pt2 vt2 n2 h2 m2 := by
  subst hpd hb hn hia hnl hdim hpt hvt hh hm
  exact ⟨rfl, rfl, rfl⟩

/-- Witness for C5 at concrete arguments. -/
theorem factories_deterministic_witness :
    Policy ⟨3⟩ none none none "train" = Policy ⟨3⟩ none none none "train" ∧
    Value none none false 1 64 "train" = Value none none false 1 64 "train" ∧
    PolicyAndValue ⟨3⟩ none default_policy_top default_value_top none
        none "train" =
      PolicyAndValue ⟨3⟩ none default_policy_top default_value_top none
        none "train" :=
  factories_deterministic ⟨3⟩ ⟨3⟩ none none none none false false 1 1 64 64
    default_policy_top default_policy_top default_value_top default_value_top
    none none "train" "train" rfl rfl rfl rfl rfl rfl rfl rfl rfl rfl

/-- C6: the head `Dense` layer of `Policy` carries
`kernel_initializer = tl.RandomUniformInitializer(lim=head_init_range)`
exactly when `head_init_range` is not `None`; with `head_init_range = None`
the `Dense` head is built without any `kernel_initializer` argument. -/
theorem policy_kernel_initializer_iff
    (policy_distribution : PolicyDistribution)
    (body normalizer : Mode → Layer)
    (lim : Rat) (mode : Mode) :
    Policy policy_distribution (some body) (some normalizer)
        (some lim) mode =
      Layer.Serial [
        normalizer mode,
        body mode,
        Layer.Dense policy_distribution.n_inputs
          (some (Initializer.RandomUniformInitializer lim))
      ] ∧
    Policy policy_distribution (some body) (some normalizer) none mode =
      Layer.Serial [
        normalizer mode,
        body mode,
        Layer.Dense policy_distribution.n_inputs none
      ] :=
  ⟨rfl, rfl⟩

/-- C8: `t5_gin_config` binds the gin parameter
`unsupervised.preprocessors` exactly once, to the list
`[select_random_chunk, reduce_concat_tokens, split_tokens, denoise]`
in that order. -/
theorem t5_gin_config_unsupervised_preprocessors :
    t5_gin_config.filter
        (fun kv => kv.1 == "unsupervised.preprocessors") =
      [("unsupervised.preprocessors", GinValue.fnList [
        T5ProcessorFn.select_random_chunk,
        T5ProcessorFn.reduce_concat_tokens,
        T5ProcessorFn.split_tokens,
        T5ProcessorFn.denoise
      ])] := by
  decide

/-- C9: no exception is caught, transformed or suppressed anywhere in
`rl.py` or `inputs_test.py`: when an underlying framework call raises (the
`normalizer`, `body`, `policy_top` or `value_top` callback in the three
factories, or any of the framework calls of the nine `InputsTest` methods
`setUp`, `test_batch_data`, `test_pad_to_max_dims`,
`test_c4_bare_preprocess_fun`, `test_c4_preprocess`, `test_c4`,
`t5_gin_config`, `test_c4_bare_preprocess_fun_denoising_objective` and
`test_c4_pretrain`), the same exception propagates unchanged to the caller:
for each method and each of its framework-call parameters, instantiating
that call as raising `e` (and every other call as succeeding) makes the
method return exactly `e`, while the all-succeeding instantiation returns
normally. -/
theorem no_exception_handling
    {E : Type} (e : E) (policy_distribution : PolicyDistribution)
    (body : Option (Mode → Except E Layer)) (a : Layer)
    (policy_top : PolicyDistribution → Mode → Except E Layer)
    (value_top : Mode → Except E Layer)
    (head_init_range : Option Rat)
    (inject_actions : Bool)
    (inject_actions_n_layers inject_actions_dim : Nat)
    (mode : Mode)
    (D1 B1 Bt1 : Type) (ds1 : D1) (b1 : B1) (bt1 : Bt1)
    (T2 : Type) (t2 : T2)
    (D3 Ex3 Txt3 : Type) (d3 : D3) (ex3 : Ex3) (txt3 : Txt3)
    (D4 Ex4 S4 : Type) (d4 : D4) (ex4 : Ex4) (s4 : S4) (n4 : Nat)
    (R5 : Type) (r5 : R5)
    (D6 S6 Ex6 A6 C6 : Type) (d6 : D6) (s6 : S6) (ex6 : Ex6) (a6 : A6)
    (c6 : C6)
    (R7 : Type) (r7 : R7) :
    PolicyExc policy_distribution body (some fun _ => .error e)
        head_init_range mode = .error e ∧
    ValueExc body (some fun _ => .error e) inject_actions
        inject_actions_n_layers inject_actions_dim mode = .error e ∧
    PolicyAndValueExc policy_distribution body policy_top value_top
        (some fun _ => .error e) head_init_range mode = .error e ∧
    PolicyExc policy_distribution (some fun _ => .error e)
        (some fun _ => .ok a) head_init_range mode = .error e ∧
    ValueExc (some fun _ => .error e) (some fun _ => .ok a) inject_actions
        inject_actions_n_layers inject_actions_dim mode = .error e ∧
    PolicyAndValueExc policy_distribution (some fun _ => .error e)
        policy_top value_top (some fun _ => .ok a) head_init_range mode =
      .error e ∧
    PolicyAndValueExc policy_distribution (some fun _ => .ok a)
        (fun _ _ => .error e) value_top (some fun _ => .ok a)
        head_init_range mode = .error e ∧
    PolicyAndValueExc policy_distribution (some fun _ => .ok a)
        (fun _ _ => .ok a) (fun _ => .error e) (some fun _ => .ok a)
        head_init_range mode = .error e ∧
    t5_gin_config_run (fun _ _ => .error e) = .error e ∧
    InputsTest_setUp E (.error e) (.ok ()) = .error e ∧
    InputsTest_setUp E (.ok ()) (.error e) = .error e ∧
    InputsTest_setUp E (.ok ()) (.ok ()) = .ok () ∧
    InputsTest_test_batch_data E D1 B1 Bt1 ds1 (fun _ _ => .error e) (fun _
      => .ok bt1) (fun _ => .ok ()) (fun _ => .ok ()) = .error e ∧
    InputsTest_test_batch_data E D1 B1 Bt1 ds1 (fun _ _ => .ok b1) (fun _ =>
      .error e) (fun _ => .ok ()) (fun _ => .ok ()) = .error e ∧
    InputsTest_test_batch_data E D1 B1 Bt1 ds1 (fun _ _ => .ok b1) (fun _ =>
      .ok bt1) (fun _ => .error e) (fun _ => .ok ()) = .error e ∧
    InputsTest_test_batch_data E D1 B1 Bt1 ds1 (fun _ _ => .ok b1) (fun _ =>
      .ok bt1) (fun _ => .ok ()) (fun _ => .error e) = .error e ∧
    InputsTest_test_batch_data E D1 B1 Bt1 ds1 (fun _ _ => .ok b1) (fun _ =>
      .ok bt1) (fun _ => .ok ()) (fun _ => .ok ()) = .ok () ∧
    InputsTest_test_pad_to_max_dims E T2 (fun _ => .error e) (fun _ => .ok
      t2) (fun _ _ => .ok t2) (fun _ _ => .ok ()) = .error e ∧
    InputsTest_test_pad_to_max_dims E T2 (fun _ => .ok t2) (fun _ => .error
      e) (fun _ _ => .ok t2) (fun _ _ => .ok ()) = .error e ∧
    InputsTest_test_pad_to_max_dims E T2 (fun _ => .ok t2) (fun _ => .ok t2)
      (fun _ _ => .error e) (fun _ _ => .ok ()) = .error e ∧
    InputsTest_test_pad_to_max_dims E T2 (fun _ => .ok t2) (fun _ => .ok t2)
      (fun _ _ => .ok t2) (fun _ _ => .error e) = .error e ∧
    InputsTest_test_pad_to_max_dims E T2 (fun _ => .ok t2) (fun _ => .ok t2)
      (fun _ _ => .ok t2) (fun _ _ => .ok ()) = .ok () ∧
    InputsTest_test_c4_bare_preprocess_fun E D3 Ex3 Txt3 (.error e) (fun _
      => .ok ex3) (fun _ _ => .ok ()) (fun _ _ => .ok ()) (fun _ => .ok
      txt3) (fun _ => .ok d3) (fun _ _ _ => .ok ()) (fun _ _ => .ok ()) (fun
      _ _ => .ok ()) (fun _ _ => .ok ()) (fun _ _ => .ok ()) = .error e ∧
    InputsTest_test_c4_bare_preprocess_fun E D3 Ex3 Txt3 (.ok d3) (fun _ =>
      .error e) (fun _ _ => .ok ()) (fun _ _ => .ok ()) (fun _ => .ok txt3)
      (fun _ => .ok d3) (fun _ _ _ => .ok ()) (fun _ _ => .ok ()) (fun _ _
      => .ok ()) (fun _ _ => .ok ()) (fun _ _ => .ok ()) = .error e ∧
    InputsTest_test_c4_bare_preprocess_fun E D3 Ex3 Txt3 (.ok d3) (fun _ =>
      .ok ex3) (fun _ _ => .error e) (fun _ _ => .ok ()) (fun _ => .ok txt3)
      (fun _ => .ok d3) (fun _ _ _ => .ok ()) (fun _ _ => .ok ()) (fun _ _
      => .ok ()) (fun _ _ => .ok ()) (fun _ _ => .ok ()) = .error e ∧
    InputsTest_test_c4_bare_preprocess_fun E D3 Ex3 Txt3 (.ok d3) (fun _ =>
      .ok ex3) (fun _ _ => .ok ()) (fun _ _ => .error e) (fun _ => .ok txt3)
      (fun _ => .ok d3) (fun _ _ _ => .ok ()) (fun _ _ => .ok ()) (fun _ _
      => .ok ()) (fun _ _ => .ok ()) (fun _ _ => .ok ()) = .error e ∧
    InputsTest_test_c4_bare_preprocess_fun E D3 Ex3 Txt3 (.ok d3) (fun _ =>
      .ok ex3) (fun _ _ => .ok ()) (fun _ _ => .ok ()) (fun _ => .error e)
      (fun _ => .ok d3) (fun _ _ _ => .ok ()) (fun _ _ => .ok ()) (fun _ _
      => .ok ()) (fun _ _ => .ok ()) (fun _ _ => .ok ()) = .error e ∧
    InputsTest_test_c4_bare_preprocess_fun E D3 Ex3 Txt3 (.ok d3) (fun _ =>
      .ok ex3) (fun _ _ => .ok ()) (fun _ _ => .ok ()) (fun _ => .ok txt3)
      (fun _ => .error e) (fun _ _ _ => .ok ()) (fun _ _ => .ok ()) (fun _ _
      => .ok ()) (fun _ _ => .ok ()) (fun _ _ => .ok ()) = .error e ∧
    InputsTest_test_c4_bare_preprocess_fun E D3 Ex3 Txt3 (.ok d3) (fun _ =>
      .ok ex3) (fun _ _ => .ok ()) (fun _ _ => .ok ()) (fun _ => .ok txt3)
      (fun _ => .ok d3) (fun _ _ _ => .error e) (fun _ _ => .ok ()) (fun _ _
      => .ok ()) (fun _ _ => .ok ()) (fun _ _ => .ok ()) = .error e ∧
    InputsTest_test_c4_bare_preprocess_fun E D3 Ex3 Txt3 (.ok d3) (fun _ =>
      .ok ex3) (fun _ _ => .ok ()) (fun _ _ => .ok ()) (fun _ => .ok txt3)
      (fun _ => .ok d3) (fun _ _ _ => .ok ()) (fun _ _ => .error e) (fun _ _
      => .ok ()) (fun _ _ => .ok ()) (fun _ _ => .ok ()) = .error e ∧
    InputsTest_test_c4_bare_preprocess_fun E D3 Ex3 Txt3 (.ok d3) (fun _ =>
      .ok ex3) (fun _ _ => .ok ()) (fun _ _ => .ok ()) (fun _ => .ok txt3)
      (fun _ => .ok d3) (fun _ _ _ => .ok ()) (fun _ _ => .ok ()) (fun _ _
      => .error e) (fun _ _ => .ok ()) (fun _ _ => .ok ()) = .error e ∧
    InputsTest_test_c4_bare_preprocess_fun E D3 Ex3 Txt3 (.ok d3) (fun _ =>
      .ok ex3) (fun _ _ => .ok ()) (fun _ _ => .ok ()) (fun _ => .ok txt3)
      (fun _ => .ok d3) (fun _ _ _ => .ok ()) (fun _ _ => .ok ()) (fun _ _
      => .ok ()) (fun _ _ => .error e) (fun _ _ => .ok ()) = .error e ∧
    InputsTest_test_c4_bare_preprocess_fun E D3 Ex3 Txt3 (.ok d3) (fun _ =>
      .ok ex3) (fun _ _ => .ok ()) (fun _ _ => .ok ()) (fun _ => .ok txt3)
      (fun _ => .ok d3) (fun _ _ _ => .ok ()) (fun _ _ => .ok ()) (fun _ _
      => .ok ()) (fun _ _ => .ok ()) (fun _ _ => .error e) = .error e ∧
    InputsTest_test_c4_bare_preprocess_fun E D3 Ex3 Txt3 (.ok d3) (fun _ =>
      .ok ex3) (fun _ _ => .ok ()) (fun _ _ => .ok ()) (fun _ => .ok txt3)
      (fun _ => .ok d3) (fun _ _ _ => .ok ()) (fun _ _ => .ok ()) (fun _ _
      => .ok ()) (fun _ _ => .ok ()) (fun _ _ => .ok ()) = .ok () ∧
    InputsTest_test_c4_preprocess E D4 Ex4 S4 (fun _ => .error e) (fun _ =>
      .ok [ex4]) (fun _ => .ok ()) (fun _ _ _ _ _ _ => .ok (d4, s4)) (fun _
      => .ok ()) (fun _ => .ok ()) (fun _ => .ok ()) (fun _ => .ok n4) (fun
      _ _ => .ok ()) (fun _ _ => .ok ()) (fun _ _ => .ok ()) (fun _ _ => .ok
      ()) = .error e ∧
    InputsTest_test_c4_preprocess E D4 Ex4 S4 (fun _ => .ok d4) (fun _ =>
      .error e) (fun _ => .ok ()) (fun _ _ _ _ _ _ => .ok (d4, s4)) (fun _
      => .ok ()) (fun _ => .ok ()) (fun _ => .ok ()) (fun _ => .ok n4) (fun
      _ _ => .ok ()) (fun _ _ => .ok ()) (fun _ _ => .ok ()) (fun _ _ => .ok
      ()) = .error e ∧
    InputsTest_test_c4_preprocess E D4 Ex4 S4 (fun _ => .ok d4) (fun _ =>
      .ok [ex4]) (fun _ => .error e) (fun _ _ _ _ _ _ => .ok (d4, s4)) (fun
      _ => .ok ()) (fun _ => .ok ()) (fun _ => .ok ()) (fun _ => .ok n4)
      (fun _ _ => .ok ()) (fun _ _ => .ok ()) (fun _ _ => .ok ()) (fun _ _
      => .ok ()) = .error e ∧
    InputsTest_test_c4_preprocess E D4 Ex4 S4 (fun _ => .ok d4) (fun _ =>
      .ok [ex4]) (fun _ => .ok ()) (fun _ _ _ _ _ _ => .error e) (fun _ =>
      .ok ()) (fun _ => .ok ()) (fun _ => .ok ()) (fun _ => .ok n4) (fun _ _
      => .ok ()) (fun _ _ => .ok ()) (fun _ _ => .ok ()) (fun _ _ => .ok ())
      = .error e ∧
    InputsTest_test_c4_preprocess E D4 Ex4 S4 (fun _ => .ok d4) (fun _ =>
      .ok [ex4]) (fun _ => .ok ()) (fun _ _ _ _ _ _ => .ok (d4, s4)) (fun _
      => .error e) (fun _ => .ok ()) (fun _ => .ok ()) (fun _ => .ok n4)
      (fun _ _ => .ok ()) (fun _ _ => .ok ()) (fun _ _ => .ok ()) (fun _ _
      => .ok ()) = .error e ∧
    InputsTest_test_c4_preprocess E D4 Ex4 S4 (fun _ => .ok d4) (fun _ =>
      .ok [ex4]) (fun _ => .ok ()) (fun _ _ _ _ _ _ => .ok (d4, s4)) (fun _
      => .ok ()) (fun _ => .error e) (fun _ => .ok ()) (fun _ => .ok n4)
      (fun _ _ => .ok ()) (fun _ _ => .ok ()) (fun _ _ => .ok ()) (fun _ _
      => .ok ()) = .error e ∧
    InputsTest_test_c4_preprocess E D4 Ex4 S4 (fun _ => .ok d4) (fun _ =>
      .ok [ex4]) (fun _ => .ok ()) (fun _ _ _ _ _ _ => .ok (d4, s4)) (fun _
      => .ok ()) (fun _ => .ok ()) (fun _ => .error e) (fun _ => .ok n4)
      (fun _ _ => .ok ()) (fun _ _ => .ok ()) (fun _ _ => .ok ()) (fun _ _
      => .ok ()) = .error e ∧
    InputsTest_test_c4_preprocess E D4 Ex4 S4 (fun _ => .ok d4) (fun _ =>
      .ok [ex4]) (fun _ => .ok ()) (fun _ _ _ _ _ _ => .ok (d4, s4)) (fun _
      => .ok ()) (fun _ => .ok ()) (fun _ => .ok ()) (fun _ => .error e)
      (fun _ _ => .ok ()) (fun _ _ => .ok ()) (fun _ _ => .ok ()) (fun _ _
      => .ok ()) = .error e ∧
    InputsTest_test_c4_preprocess E D4 Ex4 S4 (fun _ => .ok d4) (fun _ =>
      .ok [ex4]) (fun _ => .ok ()) (fun _ _ _ _ _ _ => .ok (d4, s4)) (fun _
      => .ok ()) (fun _ => .ok ()) (fun _ => .ok ()) (fun _ => .ok n4) (fun
      _ _ => .error e) (fun _ _ => .ok ()) (fun _ _ => .ok ()) (fun _ _ =>
      .ok ()) = .error e ∧
    InputsTest_test_c4_preprocess E D4 Ex4 S4 (fun _ => .ok d4) (fun _ =>
      .ok [ex4]) (fun _ => .ok ()) (fun _ _ _ _ _ _ => .ok (d4, s4)) (fun _
      => .ok ()) (fun _ => .ok ()) (fun _ => .ok ()) (fun _ => .ok n4) (fun
      _ _ => .ok ()) (fun _ _ => .error e) (fun _ _ => .ok ()) (fun _ _ =>
      .ok ()) = .error e ∧
    InputsTest_test_c4_preprocess E D4 Ex4 S4 (fun _ => .ok d4) (fun _ =>
      .ok [ex4]) (fun _ => .ok ()) (fun _ _ _ _ _ _ => .ok (d4, s4)) (fun _
      => .ok ()) (fun _ => .ok ()) (fun _ => .ok ()) (fun _ => .ok n4) (fun
      _ _ => .ok ()) (fun _ _ => .ok ()) (fun _ _ => .error e) (fun _ _ =>
      .ok ()) = .error e ∧
    InputsTest_test_c4_preprocess E D4 Ex4 S4 (fun _ => .ok d4) (fun _ =>
      .ok [ex4]) (fun _ => .ok ()) (fun _ _ _ _ _ _ => .ok (d4, s4)) (fun _
      => .ok ()) (fun _ => .ok ()) (fun _ => .ok ()) (fun _ => .ok n4) (fun
      _ _ => .ok ()) (fun _ _ => .ok ()) (fun _ _ => .ok ()) (fun _ _ =>
      .error e) = .error e ∧
    InputsTest_test_c4_preprocess E D4 Ex4 S4 (fun _ => .ok d4) (fun _ =>
      .ok [ex4]) (fun _ => .ok ()) (fun _ _ _ _ _ _ => .ok (d4, s4)) (fun _
      => .ok ()) (fun _ => .ok ()) (fun _ => .ok ()) (fun _ => .ok n4) (fun
      _ _ => .ok ()) (fun _ _ => .ok ()) (fun _ _ => .ok ()) (fun _ _ => .ok
      ()) = .ok () ∧
    InputsTest_test_c4 E R5 (fun _ _ => .error e) (fun _ _ _ => .ok r5) =
      .error e ∧
    InputsTest_test_c4 E R5 (fun _ _ => .ok ()) (fun _ _ _ => .error e) =
      .error e ∧
    InputsTest_test_c4 E R5 (fun _ _ => .ok ()) (fun _ _ _ => .ok r5) = .ok
      () ∧
    InputsTest_test_c4_bare_preprocess_fun_denoising_objective E D6 S6 Ex6 A6 C6 (fun _ _ => .error e)
      (.ok d6) (fun _ => .ok (d6, s6)) (fun _ => .ok ex6) (fun _ _ => .ok
      ()) (fun _ => .ok a6) (fun _ => .ok a6) (fun _ => .ok ()) (fun _ =>
      .ok ()) (fun _ => .ok ()) (fun _ _ => .ok ()) (fun _ => .ok c6) (fun _
      _ => .ok ()) = .error e ∧
    InputsTest_test_c4_bare_preprocess_fun_denoising_objective E D6 S6 Ex6 A6 C6 (fun _ _ => .ok ())
      (.error e) (fun _ => .ok (d6, s6)) (fun _ => .ok ex6) (fun _ _ => .ok
      ()) (fun _ => .ok a6) (fun _ => .ok a6) (fun _ => .ok ()) (fun _ =>
      .ok ()) (fun _ => .ok ()) (fun _ _ => .ok ()) (fun _ => .ok c6) (fun _
      _ => .ok ()) = .error e ∧
    InputsTest_test_c4_bare_preprocess_fun_denoising_objective E D6 S6 Ex6 A6 C6 (fun _ _ => .ok ()) (.ok
      d6) (fun _ => .error e) (fun _ => .ok ex6) (fun _ _ => .ok ()) (fun _
      => .ok a6) (fun _ => .ok a6) (fun _ => .ok ()) (fun _ => .ok ()) (fun
      _ => .ok ()) (fun _ _ => .ok ()) (fun _ => .ok c6) (fun _ _ => .ok ())
      = .error e ∧
    InputsTest_test_c4_bare_preprocess_fun_denoising_objective E D6 S6 Ex6 A6 C6 (fun _ _ => .ok ()) (.ok
      d6) (fun _ => .ok (d6, s6)) (fun _ => .error e) (fun _ _ => .ok ())
      (fun _ => .ok a6) (fun _ => .ok a6) (fun _ => .ok ()) (fun _ => .ok
      ()) (fun _ => .ok ()) (fun _ _ => .ok ()) (fun _ => .ok c6) (fun _ _
      => .ok ()) = .error e ∧
    InputsTest_test_c4_bare_preprocess_fun_denoising_objective E D6 S6 Ex6 A6 C6 (fun _ _ => .ok ()) (.ok
      d6) (fun _ => .ok (d6, s6)) (fun _ => .ok ex6) (fun _ _ => .error e)
      (fun _ => .ok a6) (fun _ => .ok a6) (fun _ => .ok ()) (fun _ => .ok
      ()) (fun _ => .ok ()) (fun _ _ => .ok ()) (fun _ => .ok c6) (fun _ _
      => .ok ()) = .error e ∧
    InputsTest_test_c4_bare_preprocess_fun_denoising_objective E D6 S6 Ex6 A6 C6 (fun _ _ => .ok ()) (.ok
      d6) (fun _ => .ok (d6, s6)) (fun _ => .ok ex6) (fun _ _ => .ok ())
      (fun _ => .error e) (fun _ => .ok a6) (fun _ => .ok ()) (fun _ => .ok
      ()) (fun _ => .ok ()) (fun _ _ => .ok ()) (fun _ => .ok c6) (fun _ _
      => .ok ()) = .error e ∧
    InputsTest_test_c4_bare_preprocess_fun_denoising_objective E D6 S6 Ex6 A6 C6 (fun _ _ => .ok ()) (.ok
      d6) (fun _ => .ok (d6, s6)) (fun _ => .ok ex6) (fun _ _ => .ok ())
      (fun _ => .ok a6) (fun _ => .error e) (fun _ => .ok ()) (fun _ => .ok
      ()) (fun _ => .ok ()) (fun _ _ => .ok ()) (fun _ => .ok c6) (fun _ _
      => .ok ()) = .error e ∧
    InputsTest_test_c4_bare_preprocess_fun_denoising_objective E D6 S6 Ex6 A6 C6 (fun _ _ => .ok ()) (.ok
      d6) (fun _ => .ok (d6, s6)) (fun _ => .ok ex6) (fun _ _ => .ok ())
      (fun _ => .ok a6) (fun _ => .ok a6) (fun _ => .error e) (fun _ => .ok
      ()) (fun _ => .ok ()) (fun _ _ => .ok ()) (fun _ => .ok c6) (fun _ _
      => .ok ()) = .error e ∧
    InputsTest_test_c4_bare_preprocess_fun_denoising_objective E D6 S6 Ex6 A6 C6 (fun _ _ => .ok ()) (.ok
      d6) (fun _ => .ok (d6, s6)) (fun _ => .ok ex6) (fun _ _ => .ok ())
      (fun _ => .ok a6) (fun _ => .ok a6) (fun _ => .ok ()) (fun _ => .error
      e) (fun _ => .ok ()) (fun _ _ => .ok ()) (fun _ => .ok c6) (fun _ _ =>
      .ok ()) = .error e ∧
    InputsTest_test_c4_bare_preprocess_fun_denoising_objective E D6 S6 Ex6 A6 C6 (fun _ _ => .ok ()) (.ok
      d6) (fun _ => .ok (d6, s6)) (fun _ => .ok ex6) (fun _ _ => .ok ())
      (fun _ => .ok a6) (fun _ => .ok a6) (fun _ => .ok ()) (fun _ => .ok
      ()) (fun _ => .error e) (fun _ _ => .ok ()) (fun _ => .ok c6) (fun _ _
      => .ok ()) = .error e ∧
    InputsTest_test_c4_bare_preprocess_fun_denoising_objective E D6 S6 Ex6 A6 C6 (fun _ _ => .ok ()) (.ok
      d6) (fun _ => .ok (d6, s6)) (fun _ => .ok ex6) (fun _ _ => .ok ())
      (fun _ => .ok a6) (fun _ => .ok a6) (fun _ => .ok ()) (fun _ => .ok
      ()) (fun _ => .ok ()) (fun _ _ => .error e) (fun _ => .ok c6) (fun _ _
      => .ok ()) = .error e ∧
    InputsTest_test_c4_bare_preprocess_fun_denoising_objective E D6 S6 Ex6 A6 C6 (fun _ _ => .ok ()) (.ok
      d6) (fun _ => .ok (d6, s6)) (fun _ => .ok ex6) (fun _ _ => .ok ())
      (fun _ => .ok a6) (fun _ => .ok a6) (fun _ => .ok ()) (fun _ => .ok
      ()) (fun _ => .ok ()) (fun _ _ => .ok ()) (fun _ => .error e) (fun _ _
      => .ok ()) = .error e ∧
    InputsTest_test_c4_bare_preprocess_fun_denoising_objective E D6 S6 Ex6 A6 C6 (fun _ _ => .ok ()) (.ok
      d6) (fun _ => .ok (d6, s6)) (fun _ => .ok ex6) (fun _ _ => .ok ())
      (fun _ => .ok a6) (fun _ => .ok a6) (fun _ => .ok ()) (fun _ => .ok
      ()) (fun _ => .ok ()) (fun _ _ => .ok ()) (fun _ => .ok c6) (fun _ _
      => .error e) = .error e ∧
    InputsTest_test_c4_bare_preprocess_fun_denoising_objective E D6 S6 Ex6 A6 C6 (fun _ _ => .ok ()) (.ok
      d6) (fun _ => .ok (d6, s6)) (fun _ => .ok ex6) (fun _ _ => .ok ())
      (fun _ => .ok a6) (fun _ => .ok a6) (fun _ => .ok ()) (fun _ => .ok
      ()) (fun _ => .ok ()) (fun _ _ => .ok ()) (fun _ => .ok c6) (fun _ _
      => .ok ()) = .ok () ∧
    InputsTest_test_c4_pretrain E R7 (fun _ _ => .error e) (fun _ _ _ => .ok
      r7) = .error e ∧
    InputsTest_test_c4_pretrain E R7 (fun _ _ => .ok ()) (fun _ _ _ =>
      .error e) = .error e ∧
    InputsTest_test_c4_pretrain E R7 (fun _ _ => .ok ()) (fun _ _ _ => .ok
      r7) = .ok () :=
  ⟨rfl, rfl, rfl, rfl, rfl, rfl, rfl, rfl, rfl, rfl, rfl, rfl, rfl, rfl, rfl, rfl, rfl, rfl, rfl, rfl, rfl, rfl, rfl, rfl, rfl, rfl, rfl, rfl, rfl, rfl, rfl, rfl, rfl, rfl, rfl, rfl, rfl, rfl, rfl, rfl, rfl, rfl, rfl, rfl, rfl, rfl, rfl, rfl, rfl, rfl, rfl, rfl, rfl, rfl, rfl, rfl, rfl, rfl, rfl, rfl, rfl, rfl, rfl, rfl, rfl, rfl, rfl⟩

/-- C10: passing `body=None` is equivalent to passing a callback returning
the empty layer list, likewise for `normalizer=None`, in each of the three
factories; with both defaulted, `Policy policy_distribution` is
`tl.Serial([], [], tl.Dense(policy_distribution.n_inputs))`: only the head
layers remain. -/
theorem none_defaults_to_empty_layer_list
    (policy_distribution : PolicyDistribution)
    (body normalizer : Option (Mode → Layer))
    (head_init_range : Option Rat)
    (inject_actions : Bool)
    (inject_actions_n_layers inject_actions_dim : Nat)
    (policy_top : PolicyDistribution → Mode → Layer)
    (value_top : Mode → Layer)
    (mode : Mode) :
    Policy policy_distribution none normalizer head_init_range mode =
      Policy policy_distribution (some fun _ => Layer.ofList [])
        normalizer head_init_range mode ∧
    Policy policy_distribution body none head_init_range mode =
      Policy policy_distribution body (some fun _ => Layer.ofList [])
        head_init_range mode ∧
    Value none normalizer inject_actions inject_actions_n_layers
        inject_actions_dim mode =
      Value (some fun _ => Layer.ofList []) normalizer inject_actions
        inject_actions_n_layers inject_actions_dim mode ∧
    Value body none inject_actions inject_actions_n_layers
        inject_actions_dim mode =
      Value body (some fun _ => Layer.ofList []) inject_actions
        inject_actions_n_layers inject_actions_dim mode ∧
    PolicyAndValue policy_distribution none policy_top value_top
        normalizer head_init_range mode =
      PolicyAndValue policy_distribution (some fun _ => Layer.ofList [])
        policy_top value_top normalizer head_init_range mode ∧
    PolicyAndValue policy_distribution body policy_top value_top none
        head_init_range mode =
      PolicyAndValue policy_distribution body policy_top value_top
        (some fun _ => Layer.ofList []) head_init_range mode ∧
    Policy policy_distribution none none none mode =
      Layer.Serial [
        Layer.ofList [],
        Layer.ofList [],
        Layer.Dense policy_distribution.n_inputs none
      ] :=
  ⟨rfl, rfl, rfl, rfl, rfl, rfl, rfl⟩

/-- C7: every layer-combinator-library name invoked to build the networks
returned by `Policy`, `Value` and `PolicyAndValue` (with the factories' own
defaults for `body`, `normalizer`, `policy_top` and `value_top`, so that
every constructed layer comes from the factory code itself) is among
`Serial`, `Parallel`, `Branch`, `Add`, `Dense` and
`RandomUniformInitializer`. -/
theorem factories_tl_surface
    (policy_distribution : PolicyDistribution)
    (head_init_range : Option Rat)
    (inject_actions : Bool)
    (inject_actions_n_layers inject_actions_dim : Nat)
    (mode : Mode) :
    (Policy policy_distribution none none head_init_range mode).tlNames ⊆
      allowedTlNames ∧
    (Value none none inject_actions inject_actions_n_layers
        inject_actions_dim mode).tlNames ⊆ allowedTlNames ∧
    (PolicyAndValue policy_distribution none default_policy_top
        default_value_top none head_init_range mode).tlNames ⊆
      allowedTlNames := by
  refine ⟨?_, ?_, ?_⟩
  · cases head_init_range <;>
      (intro x hx
       simp only [Policy, Option.getD_none, Option.getD_some,
         tlNames_Serial, tlNames_ofList, Layer.tlNames,
         List.map_cons, List.map_nil, List.flatten_cons, List.flatten_nil,
         List.mem_cons, List.mem_append, List.not_mem_nil, List.append_nil,
         List.nil_append, List.mem_singleton, or_false] at hx
       simp only [allowedTlNames, List.mem_cons, List.not_mem_nil, or_false,
         List.mem_singleton]
       tauto)
  · cases inject_actions <;>
      (intro x hx
       simp only [Value, Option.getD_none, Option.getD_some,
         tlNames_Serial, tlNames_Parallel, tlNames_ofList,
         Layer.tlNames, if_true, if_false, Bool.false_eq_true,
         List.map_cons, List.map_nil, List.flatten_cons, List.flatten_nil,
         List.mem_cons, List.mem_append, List.not_mem_nil, List.append_nil,
         List.nil_append, List.mem_singleton, or_false] at hx
       simp only [allowedTlNames, List.mem_cons, List.not_mem_nil, or_false,
         List.mem_singleton]
       tauto)
  · intro x hx
    simp only [PolicyAndValue, default_policy_top, default_value_top, Policy,
      Value, Option.getD_none, Option.getD_some,
      tlNames_Serial, tlNames_Branch, tlNames_ofList, Layer.tlNames,
      if_true, if_false, Bool.false_eq_true,
      List.map_cons, List.map_nil, List.flatten_cons, List.flatten_nil,
      List.mem_cons, List.mem_append, List.not_mem_nil, List.append_nil,
      List.nil_append, List.mem_singleton, or_false] at hx
    simp only [allowedTlNames, List.mem_cons, List.not_mem_nil, or_false,
      List.mem_singleton]
    tauto

end Trax
